import Mathlib

/-!
Verification of the response-governance core of the BFF service:
the response envelope model (`bff/utils/response_envelope.py`) and the
governance error-handling middleware (`bff/middleware/error_handler.py`).

Python strings are modelled as Lean `String`; the case-insensitive
substring tests of `mask_aws_error` are carried out on `List Char`
(`String.toList`), with `Char.toLower` standing for `str.lower()`
(faithful on the ASCII text involved).  Python runtime values that can
flow through the middleware are modelled by the inductive type `PyVal`.
-/

/- ### Substring occurrence, modelling the Python `in` operator on str -/

/-- `startsWithL s p` is true when `p` is an initial segment of `s`. -/
def startsWithL : List Char → List Char → Bool
  | _, [] => true
  | [], _ :: _ => false
  | c :: cs, p :: ps => c == p && startsWithL cs ps

/-- `containsSub s p` models Python `p in s` on strings (as char lists). -/
def containsSub : List Char → List Char → Bool
  | [], pat => startsWithL [] pat
  | c :: rest, pat => startsWithL (c :: rest) pat || containsSub rest pat

theorem startsWithL_iff (p s : List Char) :
    startsWithL s p = true ↔ ∃ r, s = p ++ r := by
  induction p generalizing s with
  | nil => simp [startsWithL]
  | cons ph pt ih =>
      cases s with
      | nil =>
          simp [startsWithL]
      | cons c cs =>
          simp only [startsWithL, Bool.and_eq_true, beq_iff_eq, ih, List.cons_append]
          constructor
          · rintro ⟨rfl, r, rfl⟩
            exact ⟨r, rfl⟩
          · rintro ⟨r, h⟩
            obtain ⟨rfl, rfl⟩ := List.cons.inj h
            exact ⟨rfl, r, rfl⟩

theorem containsSub_iff (s p : List Char) :
    containsSub s p = true ↔ ∃ a b, s = a ++ (p ++ b) := by
  induction s with
  | nil =>
      simp only [containsSub, startsWithL_iff]
      constructor
      · rintro ⟨r, h⟩
        exact ⟨[], r, h⟩
      · rintro ⟨a, b, h⟩
        rcases List.append_eq_nil.mp h.symm with ⟨rfl, h2⟩
        exact ⟨b, h2.symm⟩
  | cons c rest ih =>
      simp only [containsSub, Bool.or_eq_true, startsWithL_iff, ih]
      constructor
      · rintro (⟨r, h⟩ | ⟨a, b, h⟩)
        · exact ⟨[], r, h⟩
        · exact ⟨c :: a, b, by simp [h]⟩
      · rintro ⟨a, b, h⟩
        cases a with
        | nil => exact Or.inl ⟨b, by simpa using h⟩
        | cons a0 a1 =>
            obtain ⟨rfl, h2⟩ := List.cons.inj h
            exact Or.inr ⟨a1, b, h2⟩

theorem containsSub_trans {s t u : List Char}
    (h1 : containsSub s t = true) (h2 : containsSub t u = true) :
    containsSub s u = true := by
  rw [containsSub_iff] at *
  obtain ⟨a, b, rfl⟩ := h1
  obtain ⟨c, d, rfl⟩ := h2
  exact ⟨a ++ c, d ++ (b : List Char), by simp⟩

theorem containsSub_map {s t : List Char} (f : Char → Char)
    (h : containsSub s t = true) :
    containsSub (s.map f) (t.map f) = true := by
  rw [containsSub_iff] at *
  obtain ⟨a, b, rfl⟩ := h
  exact ⟨a.map f, b.map f, by simp⟩

/- ### Data model: `response_envelope.py` -/

/-- `ResponseMeta` dataclass: metadata attached to every response. -/
structure ResponseMeta where
  execution_id : String
  stage : String := "ASK"
deriving DecidableEq

mutual
/-- Python runtime values that can flow through the middleware: `None`,
booleans, ints, strings, dicts with string keys, tuples, and
already-built response envelopes. -/
inductive PyVal : Type where
  | vNone : PyVal
  | vBool : Bool → PyVal
  | vInt : Int → PyVal
  | vStr : String → PyVal
  | vDict : List (String × PyVal) → PyVal
  | vTuple : List PyVal → PyVal
  | vEnv : StandardResponseEnvelope → PyVal

/-- `StandardResponseEnvelope` dataclass with fields
`success`, `data`, `error`, `meta`. -/
inductive StandardResponseEnvelope : Type where
  | mk (success : Bool) (data : List (String × PyVal))
       (error : Option (List (String × PyVal))) (meta : ResponseMeta) :
       StandardResponseEnvelope
end

def StandardResponseEnvelope.success : StandardResponseEnvelope → Bool
  | .mk s _ _ _ => s

def StandardResponseEnvelope.data : StandardResponseEnvelope → List (String × PyVal)
  | .mk _ d _ _ => d

def StandardResponseEnvelope.error : StandardResponseEnvelope → Option (List (String × PyVal))
  | .mk _ _ e _ => e

def StandardResponseEnvelope.meta : StandardResponseEnvelope → ResponseMeta
  | .mk _ _ _ m => m

/-- Python dict lookup `d[k]` (first binding wins, as dict keys are unique). -/
def dictGet (d : List (String × PyVal)) (k : String) : Option PyVal :=
  match d with
  | [] => none
  | (k2, v) :: rest => if k2 == k then some v else dictGet rest k

/-- A single-quote character, written via its code point. -/
def pyQ : String := String.singleton (Char.ofNat 39)

mutual
/-- Python `repr` on the modelled values.  String escaping is modelled
only by the surrounding quotes (faithful for strings free of quote and
escape characters, which covers every string the middleware builds). -/
def pyRepr : PyVal → String
  | .vNone => "None"
  | .vBool b => if b then "True" else "False"
  | .vInt n => toString n
  | .vStr s => pyQ ++ s ++ pyQ
  | .vDict d => "\x7b" ++ String.intercalate ", " (pyReprPairs d) ++ "\x7d"
  | .vTuple xs =>
      "(" ++ String.intercalate ", " (pyReprItems xs) ++
        (if xs.length == 1 then ",)" else ")")
  | .vEnv e => pyReprEnv e

/-- `repr` of the envelope dataclass (auto-generated dataclass repr). -/
def pyReprEnv : StandardResponseEnvelope → String
  | .mk s d err m =>
      "StandardResponseEnvelope(success=" ++ (if s then "True" else "False") ++
      ", data=" ++ "\x7b" ++ String.intercalate ", " (pyReprPairs d) ++ "\x7d" ++
      ", error=" ++
        (match err with
         | none => "None"
         | some e2 => "\x7b" ++ String.intercalate ", " (pyReprPairs e2) ++ "\x7d") ++
      ", meta=ResponseMeta(execution_id=" ++ pyQ ++ m.execution_id ++ pyQ ++
      ", stage=" ++ pyQ ++ m.stage ++ pyQ ++ "))"

def pyReprPairs : List (String × PyVal) → List String
  | [] => []
  | (k, v) :: rest => (pyQ ++ k ++ pyQ ++ ": " ++ pyRepr v) :: pyReprPairs rest

def pyReprItems : List PyVal → List String
  | [] => []
  | v :: rest => pyRepr v :: pyReprItems rest
end

/-- Python `str`: identity on strings, `repr` otherwise (for the value
shapes modelled here). -/
def pyStr : PyVal → String
  | .vStr s => s
  | v => pyRepr v

/-- The value stored under the `error` key when serializing:
`None` for a missing error dict, the dict itself otherwise. -/
def optVal : Option (List (String × PyVal)) → PyVal
  | none => .vNone
  | some d => .vDict d

/-- `StandardResponseEnvelope.to_dict`.  The source writes
`self.data if self.success else ...` and
`self.error if not self.success else None`; the two conditionals below
are those same expressions. -/
def StandardResponseEnvelope.to_dict (e : StandardResponseEnvelope) :
    List (String × PyVal) :=
  [("success", PyVal.vBool e.success),
   ("data", PyVal.vDict (if e.success then e.data else [])),
   ("error", if e.success then PyVal.vNone else optVal e.error),
   ("meta", PyVal.vDict [("execution_id", PyVal.vStr e.meta.execution_id),
                         ("stage", PyVal.vStr e.meta.stage)])]

/-- `create_success_response`. -/
def create_success_response (data : List (String × PyVal)) (execution_id : String)
    (stage : String := "ASK") : StandardResponseEnvelope :=
  .mk true data none ⟨execution_id, stage⟩

/-- `create_error_response`.  The source guards the `details` entry with
`if details:`, Python truthiness — so `None` and the empty dict both
leave the entry off. -/
def create_error_response (error_message : String) (error_code : String)
    (execution_id : String) (stage : String := "ASK")
    (details : Option (List (String × PyVal)) := none) : StandardResponseEnvelope :=
  let error_dict := [("message", PyVal.vStr error_message),
                     ("code", PyVal.vStr error_code)]
  let error_dict :=
    match details with
    | some d => if d.isEmpty then error_dict
                else error_dict ++ [("details", PyVal.vDict d)]
    | none => error_dict
  .mk false [] (some error_dict) ⟨execution_id, stage⟩

/-- `mask_aws_error`, applied to the rendered description `str(error)`.
(The source also computes `type(error).__name__` but never uses it.) -/
def mask_aws_error (error_str_raw : String) : String × String :=
  let error_str := error_str_raw.toList.map Char.toLower
  if containsSub error_str "dynamodb".toList || containsSub error_str "botocore".toList then
    ("Database operation failed", "DB_ERROR")
  else if containsSub error_str "iam".toList || containsSub error_str "unauthorized".toList then
    ("Access denied", "AUTH_ERROR")
  else if containsSub error_str "lambda".toList || containsSub error_str "service".toList then
    ("Service unavailable", "SERVICE_ERROR")
  else
    ("Internal server error", "INTERNAL_ERROR")

/- ### Middleware: `error_handler.py` -/

/-- Outcome of the normalization phase of the wrapper (lines 69-97):
either a `(body, status)` response together with the number of warning
log entries emitted, or an exception raised during normalization itself
(the `data, status = result` unpacking), with the warnings already
emitted before the raise. -/
inductive NormResult : Type where
  | resp (body : List (String × PyVal)) (status : PyVal) (warnings : Nat) : NormResult
  | raised (excMsg : String) (warnings : Nat) : NormResult

/-- Rendered message of the `ValueError` raised by `data, status = result`
when `result` is a tuple of length `n ≠ 2` (also defined at `n = 2`,
where no exception is actually raised). -/
def unpackErrMsg (n : Nat) : String :=
  if n > 2 then "too many values to unpack (expected 2)"
  else "not enough values to unpack (expected 2, got " ++ toString n ++ ")"

/-- The value coerced into `data` in the tuple branch:
`data if isinstance(data, dict) else ("result": str(data))`. -/
def coerceData : PyVal → List (String × PyVal)
  | .vDict dd => dd
  | data => [("result", PyVal.vStr (pyStr data))]

/-- Normalization of a tuple result (lines 74-77 and 85-91): a 2-tuple
headed by an envelope passes through; any other 2-tuple is coerced after
the warning; a tuple of any other length raises in `data, status = result`
after the warning was already written. -/
def normalizeTuple (xs : List PyVal) (execution_id : String) : NormResult :=
  match xs with
  | [first, status_code] =>
      match first with
      | .vEnv e => .resp e.to_dict status_code 0
      | data =>
          .resp (create_success_response (coerceData data) execution_id).to_dict
            status_code 1
  | other => .raised (unpackErrMsg other.length) 1

/-- Normalization of the handler result (lines 69-97 of the wrapper). -/
def normalizeResult (result : PyVal) (execution_id : String) : NormResult :=
  match result with
  | .vEnv e => .resp e.to_dict (.vInt 200) 0
  | .vTuple xs => normalizeTuple xs execution_id
  | other =>
      .resp (create_success_response [("result", PyVal.vStr (pyStr other))]
               execution_id).to_dict
        (.vInt 200) 1

/-- Status selection in the except branch (lines 117-124):
`status_code = 500` then the if/elif chain. -/
def exceptStatus (error_code : String) : Int :=
  if error_code == "VALIDATION_ERROR" then 400
  else if error_code == "AUTH_ERROR" then 403
  else if error_code == "NOT_FOUND" then 404
  else 500

/-- The except branch (lines 99-126): mask the error, build the error
envelope, pick the status. -/
def exceptPath (excMsg : String) (execution_id : String) :
    List (String × PyVal) × Int :=
  let masked := mask_aws_error excMsg
  let response := create_error_response masked.1 masked.2 execution_id
  (response.to_dict, exceptStatus masked.2)

/-- The observable outcome of one wrapped request: serialized body,
transport status, and the number of coercion-warning log entries. -/
structure WResponse where
  body : List (String × PyVal)
  status : PyVal
  warnings : Nat

/-- `govenance_error_handler` (name as in the source): the decorated
function, applied to the outcome of the wrapped handler — either a
returned value or a raised exception rendered as its description. -/
def govenance_error_handler (outcome : Except String PyVal)
    (execution_id : String) : WResponse :=
  match outcome with
  | .ok result =>
      match normalizeResult result execution_id with
      | .resp body status warnings => ⟨body, status, warnings⟩
      | .raised excMsg warnings =>
          let p := exceptPath excMsg execution_id
          ⟨p.1, .vInt p.2, warnings⟩
  | .error excMsg =>
      let p := exceptPath excMsg execution_id
      ⟨p.1, .vInt p.2, 0⟩

/- ### Shared lemmas -/

/-- The classifier returns one of exactly four `(message, code)` pairs. -/
theorem mask_code_cases (s : String) :
    mask_aws_error s = ("Database operation failed", "DB_ERROR") ∨
    mask_aws_error s = ("Access denied", "AUTH_ERROR") ∨
    mask_aws_error s = ("Service unavailable", "SERVICE_ERROR") ∨
    mask_aws_error s = ("Internal server error", "INTERNAL_ERROR") := by
  simp only [mask_aws_error]
  split_ifs <;> simp

/-- Masking the tuple-unpacking `ValueError` message always classifies as
`INTERNAL_ERROR`, whatever the tuple length was. -/
theorem mask_unpackErrMsg (n : Nat) :
    mask_aws_error (unpackErrMsg n) = ("Internal server error", "INTERNAL_ERROR") := by
  match n with
  | 0 => decide
  | 1 => decide
  | 2 => decide
  | (m + 3) =>
      have h2 : m + 3 > 2 := by omega
      have h3 : unpackErrMsg (m + 3) = "too many values to unpack (expected 2)" := by
        simp [unpackErrMsg, h2]
      rw [h3]
      decide

/- ### Claim theorems -/

/-- C2: for every envelope, even one violating the constructor invariant,
`to_dict` emits exactly the four top-level keys `success, data, error, meta`,
forces `data` to the empty dict when `success` is false, and forces `error`
to `None` when `success` is true. -/
theorem to_dict_four_keys_defensive (e : StandardResponseEnvelope) :
    e.to_dict.map Prod.fst = ["success", "data", "error", "meta"] ∧
    (e.success = false → dictGet e.to_dict "data" = some (PyVal.vDict [])) ∧
    (e.success = true → dictGet e.to_dict "error" = some PyVal.vNone) := by
  obtain ⟨s, d, err, m⟩ := e
  refine ⟨rfl, fun h => ?_, fun h => ?_⟩ <;>
  · simp only [StandardResponseEnvelope.success] at h
    subst h
    rfl

/-- Witness for C2 at two concrete invariant-violating envelopes. -/
theorem to_dict_four_keys_defensive_witness :
    ((StandardResponseEnvelope.mk false [("leak", PyVal.vInt 7)] none
        ⟨"e1", "ASK"⟩).to_dict.map Prod.fst = ["success", "data", "error", "meta"]) ∧
    dictGet (StandardResponseEnvelope.mk false [("leak", PyVal.vInt 7)] none
        ⟨"e1", "ASK"⟩).to_dict "data" = some (PyVal.vDict []) ∧
    dictGet (StandardResponseEnvelope.mk true [] (some [("boom", PyVal.vInt 1)])
        ⟨"e2", "ASK"⟩).to_dict "error" = some PyVal.vNone :=
  ⟨(to_dict_four_keys_defensive _).1,
   (to_dict_four_keys_defensive _).2.1 rfl,
   (to_dict_four_keys_defensive _).2.2 rfl⟩

/-- C3: a fault whose lowercased description contains `dynamodb` or
`botocore` is always classified `("Database operation failed", "DB_ERROR")`,
even in the presence of the later keywords, and the returned message never
contains the original fault text. -/
theorem mask_db_keyword_priority (s : String)
    (h : containsSub (s.toList.map Char.toLower) "dynamodb".toList = true ∨
         containsSub (s.toList.map Char.toLower) "botocore".toList = true) :
    mask_aws_error s = ("Database operation failed", "DB_ERROR") ∧
    containsSub "Database operation failed".toList s.toList = false := by
  have hcond : (containsSub (s.toList.map Char.toLower) "dynamodb".toList ||
      containsSub (s.toList.map Char.toLower) "botocore".toList) = true := by
    rcases h with h | h
    · rw [h, Bool.true_or]
    · rw [h, Bool.or_true]
  constructor
  · simp only [mask_aws_error]
    rw [hcond]
    rfl
  · by_contra hc
    rw [Bool.not_eq_false] at hc
    have hm := containsSub_map Char.toLower hc
    rcases h with h | h
    · have hdyn := containsSub_trans hm h
      revert hdyn
      decide
    · have hbot := containsSub_trans hm h
      revert hbot
      decide

/-- Witness for C3: a description containing both an identity keyword and
the data-store keyword still classifies as `DB_ERROR`. -/
theorem mask_db_keyword_priority_witness :
    mask_aws_error "IAM denied while writing to DynamoDB" =
      ("Database operation failed", "DB_ERROR") ∧
    containsSub "Database operation failed".toList
      "IAM denied while writing to DynamoDB".toList = false := by
  have h : containsSub
        ("IAM denied while writing to DynamoDB".toList.map Char.toLower)
        "dynamodb".toList = true ∨
      containsSub
        ("IAM denied while writing to DynamoDB".toList.map Char.toLower)
        "botocore".toList = true :=
    Or.inl (by decide)
  exact ⟨(mask_db_keyword_priority "IAM denied while writing to DynamoDB" h).1,
         (mask_db_keyword_priority "IAM denied while writing to DynamoDB" h).2⟩

/-- C4: `create_success_response` always yields `success=true`, `error=None`
and the supplied payload as `data`; `create_error_response` always yields
`success=false`, empty `data`, and a non-null error dict carrying the
supplied message and code. -/
theorem response_builder_mutual_exclusion
    (data : List (String × PyVal)) (m c eid st : String)
    (details : Option (List (String × PyVal))) :
    (create_success_response data eid st).success = true ∧
    (create_success_response data eid st).error = none ∧
    (create_success_response data eid st).data = data ∧
    (create_error_response m c eid st details).success = false ∧
    (create_error_response m c eid st details).data = [] ∧
    ∃ errd, (create_error_response m c eid st details).error = some errd ∧
      dictGet errd "message" = some (PyVal.vStr m) ∧
      dictGet errd "code" = some (PyVal.vStr c) := by
  refine ⟨rfl, rfl, rfl, rfl, rfl, ?_⟩
  cases details with
  | none => exact ⟨_, rfl, rfl, rfl⟩
  | some d =>
      cases d with
      | nil => exact ⟨_, rfl, rfl, rfl⟩
      | cons p t => exact ⟨_, rfl, rfl, rfl⟩

/-- C7: the classifier is a total function whose code component always lies
in the closed set `DB_ERROR, AUTH_ERROR, SERVICE_ERROR, INTERNAL_ERROR`; it
never produces `VALIDATION_ERROR` or `NOT_FOUND`. -/
theorem mask_total_closed_vocabulary (s : String) :
    ((mask_aws_error s).2 = "DB_ERROR" ∨ (mask_aws_error s).2 = "AUTH_ERROR" ∨
     (mask_aws_error s).2 = "SERVICE_ERROR" ∨
     (mask_aws_error s).2 = "INTERNAL_ERROR") ∧
    (mask_aws_error s).2 ≠ "VALIDATION_ERROR" ∧
    (mask_aws_error s).2 ≠ "NOT_FOUND" := by
  rcases mask_code_cases s with h | h | h | h <;> rw [h] <;> decide

/-- C1 (counterexample): a handler returning the plain mapping
`("foo": "bar")` does NOT get that mapping back as the `data` field —
the non-tuple fallback wraps `("result": str(result))` instead. -/
theorem plain_mapping_not_passed_through_cex :
    ¬ dictGet (govenance_error_handler
        (.ok (.vDict [("foo", PyVal.vStr "bar")])) "exec-1").body "data" =
      some (PyVal.vDict [("foo", PyVal.vStr "bar")]) := by
  intro h
  rw [show dictGet (govenance_error_handler
        (.ok (.vDict [("foo", PyVal.vStr "bar")])) "exec-1").body "data" =
      some (PyVal.vDict [("result",
        PyVal.vStr (pyStr (PyVal.vDict [("foo", PyVal.vStr "bar")])))]) from rfl] at h
  simp at h

/-- C1 (amended): a handler returning, without fault, a plain mapping `d`
(no status) yields status 200, a success envelope, and exactly one warning
log entry — but the `data` field is `("result": str(d))`, the stringified
mapping under the key `result`, not `d` itself. -/
theorem plain_mapping_coercion (d : List (String × PyVal)) (eid : String) :
    (govenance_error_handler (.ok (.vDict d)) eid).status = PyVal.vInt 200 ∧
    (govenance_error_handler (.ok (.vDict d)) eid).warnings = 1 ∧
    dictGet (govenance_error_handler (.ok (.vDict d)) eid).body "success" =
      some (PyVal.vBool true) ∧
    dictGet (govenance_error_handler (.ok (.vDict d)) eid).body "error" =
      some PyVal.vNone ∧
    dictGet (govenance_error_handler (.ok (.vDict d)) eid).body "data" =
      some (PyVal.vDict [("result", PyVal.vStr (pyStr (PyVal.vDict d)))]) :=
  ⟨rfl, rfl, rfl, rfl, rfl⟩

/-- C5: every fault is masked — the body is the serialized error envelope
built from the classifier output, the status follows the fixed code-status
mapping, and in particular the fault "DynamoDB provisioned throughput
exceeded" yields status 500 with message "Database operation failed" and
code `DB_ERROR`. -/
theorem fault_path_masked_body_and_status (e eid : String) :
    (govenance_error_handler (.error e) eid).body =
      (create_error_response (mask_aws_error e).1 (mask_aws_error e).2 eid).to_dict ∧
    (govenance_error_handler (.error e) eid).status =
      PyVal.vInt (if (mask_aws_error e).2 = "VALIDATION_ERROR" then 400
        else if (mask_aws_error e).2 = "AUTH_ERROR" then 403
        else if (mask_aws_error e).2 = "NOT_FOUND" then 404 else 500) ∧
    dictGet (govenance_error_handler
        (.error "DynamoDB provisioned throughput exceeded") eid).body "error" =
      some (PyVal.vDict [("message", PyVal.vStr "Database operation failed"),
                         ("code", PyVal.vStr "DB_ERROR")]) ∧
    (govenance_error_handler
        (.error "DynamoDB provisioned throughput exceeded") eid).status =
      PyVal.vInt 500 ∧
    dictGet (govenance_error_handler
        (.error "DynamoDB provisioned throughput exceeded") eid).body "success" =
      some (PyVal.vBool false) := by
  have hst : (govenance_error_handler (.error e) eid).status =
      PyVal.vInt (exceptStatus (mask_aws_error e).2) := rfl
  have hstatus : (govenance_error_handler (.error e) eid).status =
      PyVal.vInt (if (mask_aws_error e).2 = "VALIDATION_ERROR" then 400
        else if (mask_aws_error e).2 = "AUTH_ERROR" then 403
        else if (mask_aws_error e).2 = "NOT_FOUND" then 404 else 500) := by
    rcases mask_code_cases e with h | h | h | h <;> rw [hst, h] <;> rfl
  exact ⟨rfl, hstatus, rfl, rfl, rfl⟩

/-- C6: an already-built envelope is passed through unchanged with status
200 and no coercion warning, and a `(envelope, status)` pair is passed
through with both components unchanged — whatever the status value. -/
theorem envelope_passthrough (e : StandardResponseEnvelope) (s : PyVal)
    (eid : String) :
    govenance_error_handler (.ok (.vEnv e)) eid = ⟨e.to_dict, .vInt 200, 0⟩ ∧
    govenance_error_handler (.ok (.vTuple [.vEnv e, s])) eid =
      ⟨e.to_dict, s, 0⟩ :=
  ⟨rfl, rfl⟩

/-- C8 (counterexample): passing the empty mapping as `details` does NOT
attach a `details` entry — `if details:` is false on an empty dict. -/
theorem empty_details_dropped_cex :
    ¬ ∃ errd, (create_error_response "msg" "CODE" "eid" "ASK"
        (some [])).error = some errd ∧
      dictGet errd "details" = some (PyVal.vDict []) := by
  rintro ⟨errd, he, hg⟩
  rw [show (create_error_response "msg" "CODE" "eid" "ASK" (some [])).error =
      some [("message", PyVal.vStr "msg"), ("code", PyVal.vStr "CODE")]
    from rfl] at he
  cases he
  rw [show dictGet [("message", PyVal.vStr "msg"), ("code", PyVal.vStr "CODE")]
      "details" = (none : Option PyVal) from rfl] at hg
  exact Option.noConfusion hg

/-- C8 (amended): a non-empty `details` mapping is attached under
`error.details` verbatim; when `details` is absent or is the empty
mapping, the error dict carries no `details` entry at all. -/
theorem error_details_nonempty_verbatim (m c eid st : String)
    (d : List (String × PyVal)) (hd : d ≠ []) :
    (create_error_response m c eid st (some d)).error =
      some [("message", PyVal.vStr m), ("code", PyVal.vStr c),
            ("details", PyVal.vDict d)] ∧
    (create_error_response m c eid st (some [])).error =
      some [("message", PyVal.vStr m), ("code", PyVal.vStr c)] ∧
    (create_error_response m c eid st none).error =
      some [("message", PyVal.vStr m), ("code", PyVal.vStr c)] := by
  refine ⟨?_, rfl, rfl⟩
  cases d with
  | nil => exact absurd rfl hd
  | cons p t => rfl

/-- Witness for C8 (amended) at a concrete non-empty details mapping. -/
theorem error_details_nonempty_verbatim_witness :
    (create_error_response "m" "C" "e1" "ASK"
        (some [("k", PyVal.vInt 1)])).error =
      some [("message", PyVal.vStr "m"), ("code", PyVal.vStr "C"),
            ("details", PyVal.vDict [("k", PyVal.vInt 1)])] ∧
    (create_error_response "m" "C" "e1" "ASK" (some [])).error =
      some [("message", PyVal.vStr "m"), ("code", PyVal.vStr "C")] ∧
    (create_error_response "m" "C" "e1" "ASK" none).error =
      some [("message", PyVal.vStr "m"), ("code", PyVal.vStr "C")] :=
  error_details_nonempty_verbatim "m" "C" "e1" "ASK" [("k", PyVal.vInt 1)]
    (by simp)

/-- C9: a handler returning a tuple whose length is not 2 does not crash
the wrapper and is not coerced into a success response: the unpacking
fault is caught by the wrapper's own fault path, giving a `success=false`
envelope with code `INTERNAL_ERROR` and transport status 500. -/
theorem bad_arity_tuple_internal_error (xs : List PyVal) (eid : String)
    (h : xs.length ≠ 2) :
    (govenance_error_handler (.ok (.vTuple xs)) eid).status = PyVal.vInt 500 ∧
    dictGet (govenance_error_handler (.ok (.vTuple xs)) eid).body "success" =
      some (PyVal.vBool false) ∧
    dictGet (govenance_error_handler (.ok (.vTuple xs)) eid).body "error" =
      some (PyVal.vDict [("message", PyVal.vStr "Internal server error"),
                         ("code", PyVal.vStr "INTERNAL_ERROR")]) := by
  match xs, h with
  | [], _ => exact ⟨rfl, rfl, rfl⟩
  | [a], _ =>
      have hg : govenance_error_handler (.ok (.vTuple [a])) eid =
          ⟨(exceptPath (unpackErrMsg 1) eid).1,
           .vInt (exceptPath (unpackErrMsg 1) eid).2, 1⟩ := rfl
      rw [hg]
      simp only [exceptPath, mask_unpackErrMsg]
      exact ⟨rfl, rfl, rfl⟩
  | [a, b], h => exact absurd rfl h
  | a :: b :: c :: rest, _ =>
      have hg : govenance_error_handler (.ok (.vTuple (a :: b :: c :: rest))) eid =
          ⟨(exceptPath (unpackErrMsg (rest.length + 3)) eid).1,
           .vInt (exceptPath (unpackErrMsg (rest.length + 3)) eid).2, 1⟩ := rfl
      rw [hg]
      simp only [exceptPath, mask_unpackErrMsg]
      exact ⟨rfl, rfl, rfl⟩

/-- Witness for C9 at a concrete 3-tuple. -/
theorem bad_arity_tuple_internal_error_witness :
    (govenance_error_handler
        (.ok (.vTuple [PyVal.vNone, PyVal.vNone, PyVal.vNone])) "e9").status =
      PyVal.vInt 500 ∧
    dictGet (govenance_error_handler
        (.ok (.vTuple [PyVal.vNone, PyVal.vNone, PyVal.vNone])) "e9").body
      "success" = some (PyVal.vBool false) ∧
    dictGet (govenance_error_handler
        (.ok (.vTuple [PyVal.vNone, PyVal.vNone, PyVal.vNone])) "e9").body
      "error" =
      some (PyVal.vDict [("message", PyVal.vStr "Internal server error"),
                         ("code", PyVal.vStr "INTERNAL_ERROR")]) :=
  bad_arity_tuple_internal_error [PyVal.vNone, PyVal.vNone, PyVal.vNone] "e9"
    (by decide)

/-- C10: the wrapper's fault path only ever answers with transport status
403 or 500; its 400 and 404 branches are unreachable because the
classifier never emits `VALIDATION_ERROR` or `NOT_FOUND`. -/
theorem fault_path_status_403_or_500 (e eid : String) :
    (govenance_error_handler (.error e) eid).status = PyVal.vInt 403 ∨
    (govenance_error_handler (.error e) eid).status = PyVal.vInt 500 := by
  have hst : (govenance_error_handler (.error e) eid).status =
      PyVal.vInt (exceptStatus (mask_aws_error e).2) := rfl
  rcases mask_code_cases e with h | h | h | h <;> rw [hst, h] <;>
    first
    | exact Or.inl rfl
    | exact Or.inr rfl
